import Mathlib

/-!
Verification of the UnType push-to-talk dictation orchestrator.

This file is a shallow embedding of the pipeline orchestrator
(`src/untype/main.py`), the window-identity safety check
(`src/untype/_platform_win32.py`), and the hotkey listener
(`src/untype/hotkey.py`).  External collaborators (overlay, tray, audio
recorder, STT engine, LLM client, clipboard) are modelled as an effect
trace plus environment records supplying the values their calls return
in a given run; concurrent writes to the shared cancellation flag and
the watcher mismatch flag are modelled as environment-chosen arrival
points between the sequential reads of the embedded code.
-/

namespace Untype

/-- Snapshot of a foreground window (`untype.platform.WindowIdentity`). -/
structure WindowIdentity where
  hwnd : Nat
  title : String
  pid : Nat
deriving DecidableEq, Repr

/-- Screen position of the text caret (`untype.platform.CaretPosition`). -/
structure CaretPosition where
  x : Int
  y : Int
  found : Bool
deriving DecidableEq, Repr

/-- `_platform_win32.verify_foreground_window`: compares both the HWND and
the PID of the current foreground window against the snapshot. -/
def verify_foreground_window (current target : WindowIdentity) : Bool :=
  current.hwnd == target.hwnd && current.pid == target.pid

/-- Python truthiness of an optional string (`if self._selected_text:` and
similar): `None` and the empty string are falsy. -/
def pyTruthy : Option String → Bool
  | none => false
  | some t => t != ""

/-- Python `a or "dflt"` on an optional string (used by
`self._mode = self._last_mode or "insert"`). -/
def pyStrOr (a : Option String) (dflt : String) : String :=
  match a with
  | some x => if x = "" then dflt else x
  | none => dflt

/-- Persona record (`untype.config.Persona`, with the `active` flag used by
`UnTypeApp._active_personas`).  Prompt/model overrides are plain strings
where the empty string means "unset" (Python truthiness); temperature and
max_tokens are optional. -/
structure Persona where
  id : String
  name : String
  icon : String
  active : Bool
  promptPolish : String
  promptInsert : String
  model : String
  temperature : Option Rat
  maxTokens : Option Int
deriving DecidableEq, Repr

/-- Per-call override bundle assembled by `_run_llm` (the `overrides` dict;
the `cancel_event` entry is a handle, not data, and is not represented). -/
structure LLMOverrides where
  systemPrompt : Option String
  model : Option String
  temperature : Option Rat
  maxTokens : Option Int
deriving DecidableEq, Repr

/-- Observable calls made into the external collaborators, in program order. -/
inductive Effect where
  | hideGhostMenu
  | copyToClipboard (text : String)
  | hideHoldBubble
  | spawnThread (threadName : String)
  | overlayShow (x y : Int) (status : String)
  | overlayUpdateStatus (status : String)
  | overlayHide
  | hideRecordingPersonas
  | hideRealtimePreview
  | showRecordingPersonas
  | selectRecordingPersona (idx : Nat)
  | showRealtimePreview
  | trayStatus (status : String)
  | startRecorder
  | stopRecorder
  | abortRecorder
  | stopSTTSession
  | startTimeoutMonitor
  | stopTimeoutMonitor
  | llmPolish (originalText instruction : String) (ov : LLMOverrides)
  | llmInsert (text : String) (ov : LLMOverrides)
  | injectText (text : String) (clipboard : Option String)
  | flyToHoldBubble (text : String)
  | flyToCorner
  | showGhostMenu (x y : Int)
  | showStaging (text : String) (x y : Int) (atCorner : Bool)
  | sleepMs (ms : Nat)
  | simulateUndo
deriving DecidableEq, Repr

/-- True exactly on a clipboard text-injection effect. -/
def isInjectEffect : Effect → Bool
  | Effect.injectText _ _ => true
  | _ => false

/-- The orchestrator's mutable fields (`UnTypeApp.__init__`), restricted to
the interaction / safety / lock / last-interaction state the pipeline
reads and writes.  `pipelineLockHeld` models `_pipeline_lock` being held. -/
structure AppState where
  mode : String
  selectedText : Option String
  originalClipboard : Option String
  preselectedPersona : Option Persona
  targetWindow : Option WindowIdentity
  heldResult : Option String
  heldClipboard : Option String
  windowMismatch : Bool
  hwndWatchActive : Bool
  caretX : Int
  caretY : Int
  pipelineLockHeld : Bool
  pressActive : Bool
  recordingStartedSet : Bool
  cancelRequested : Bool
  digitInterceptorActive : Bool
  lastRawText : Option String
  lastResult : Option String
  lastPersona : Option Persona
  lastMode : Option String
  lastSelectedText : Option String
  lastOriginalClipboard : Option String
  lastTargetWindow : Option WindowIdentity
  lastCaretX : Int
  lastCaretY : Int
deriving DecidableEq, Repr

/-- The nine `_last_*` fields (the LastInteraction record) as a tuple, so
"unchanged" can be stated as one equality. -/
def lastFields (s : AppState) :
    Option String × Option String × Option Persona × Option String ×
    Option String × Option String × Option WindowIdentity × Int × Int :=
  (s.lastRawText, s.lastResult, s.lastPersona, s.lastMode, s.lastSelectedText,
   s.lastOriginalClipboard, s.lastTargetWindow, s.lastCaretX, s.lastCaretY)

/-- `UnTypeApp._verify_window_safety`: True when no target snapshot exists;
otherwise False iff the sticky mismatch flag is set or the foreground
window no longer matches the snapshot. -/
def verifyWindowSafety (targetWindow : Option WindowIdentity)
    (windowMismatch : Bool) (fg : WindowIdentity) : Bool :=
  match targetWindow with
  | none => true
  | some t => !(windowMismatch || !(verify_foreground_window fg t))

/-- The pynput special keys used by `untype.hotkey` (modifier variants plus
the named non-modifier keys of `_SPECIAL_KEYS`). -/
inductive PKey where
  | alt | altL | altR | altGr
  | ctrl | ctrlL | ctrlR
  | shift | shiftL | shiftR
  | cmd | cmdL | cmdR
  | space | enter | tab | backspace | del | esc
  | up | down | left | right | home | endKey | pageUp | pageDown | ins
  | f1 | f2 | f3 | f4 | f5 | f6 | f7 | f8 | f9 | f10 | f11 | f12
deriving DecidableEq, Repr

/-- A pynput key event value: either a `keyboard.Key` (special) or a
`keyboard.KeyCode` whose `char` may be absent. -/
inductive PynputKey where
  | special (k : PKey)
  | keyCode (c : Option Char)
deriving DecidableEq, Repr

/-- The keys of `_MODIFIER_MAP` in `untype.hotkey`. -/
def modifierMapKeys : List String := ["alt", "ctrl", "shift", "cmd", "win"]

/-- Canonicalisation applied by `parse_hotkey`: "win" is an alias for "cmd". -/
def canonicalMod (m : String) : String := if m = "win" then "cmd" else m

/-- `_KEY_TO_MODIFIER` in `untype.hotkey`: map any pynput modifier key
variant to its canonical modifier name ("win" alias skipped). -/
def normalizeModifierKey : PKey → Option String
  | PKey.alt => some "alt"
  | PKey.altL => some "alt"
  | PKey.altR => some "alt"
  | PKey.altGr => some "alt"
  | PKey.ctrl => some "ctrl"
  | PKey.ctrlL => some "ctrl"
  | PKey.ctrlR => some "ctrl"
  | PKey.shift => some "shift"
  | PKey.shiftL => some "shift"
  | PKey.shiftR => some "shift"
  | PKey.cmd => some "cmd"
  | PKey.cmdL => some "cmd"
  | PKey.cmdR => some "cmd"
  | _ => none

/-- `HotkeyListener._normalize_modifier`: only `keyboard.Key` values (not
`KeyCode`) can be modifiers. -/
def normalizeModifier : PynputKey → Option String
  | PynputKey.special k => normalizeModifierKey k
  | PynputKey.keyCode _ => none

/-- `_SPECIAL_KEYS` in `untype.hotkey`: named non-modifier keys. -/
def SPECIAL_KEYS : List (String × PKey) :=
  [("space", PKey.space), ("enter", PKey.enter), ("tab", PKey.tab),
   ("backspace", PKey.backspace), ("delete", PKey.del),
   ("escape", PKey.esc), ("esc", PKey.esc),
   ("up", PKey.up), ("down", PKey.down), ("left", PKey.left),
   ("right", PKey.right), ("home", PKey.home), ("end", PKey.endKey),
   ("page_up", PKey.pageUp), ("page_down", PKey.pageDown),
   ("insert", PKey.ins),
   ("f1", PKey.f1), ("f2", PKey.f2), ("f3", PKey.f3), ("f4", PKey.f4),
   ("f5", PKey.f5), ("f6", PKey.f6), ("f7", PKey.f7), ("f8", PKey.f8),
   ("f9", PKey.f9), ("f10", PKey.f10), ("f11", PKey.f11), ("f12", PKey.f12)]

/-- ASCII whitespace recognised by Python `str.strip()` (kernel-computable
restriction of the Unicode rule to the ASCII range, which is all that can
occur in hotkey strings and transcripts here). -/
def isPySpace (c : Char) : Bool :=
  c = ' ' || c = '\t' || c = '\n' || c = '\r' || c = Char.ofNat 11 || c = Char.ofNat 12

/-- Python `str.strip()` on a character list. -/
def pyStripChars (cs : List Char) : List Char :=
  ((cs.dropWhile isPySpace).reverse.dropWhile isPySpace).reverse

/-- Python `str.strip()`. -/
def pyStrip (s : String) : String := String.mk (pyStripChars s.data)

/-- Python `str.lower()` (ASCII case mapping). -/
def pyLower (s : String) : String := String.mk (s.data.map Char.toLower)

/-- Python `str.split("+")` on a character list: groups between the
separator occurrences; the empty string yields one empty group. -/
def splitOnPlus : List Char → List (List Char)
  | [] => [[]]
  | c :: rest =>
    if c = '+' then [] :: splitOnPlus rest
    else
      match splitOnPlus rest with
      | [] => [[c]]
      | g :: gs => (c :: g) :: gs

/-- Token list of a hotkey string: split on "+", strip and lowercase each
part (`parse_hotkey` line 77). -/
def hotkeyTokens (s : String) : List String :=
  (splitOnPlus s.data).map (fun cs => pyLower (pyStrip (String.mk cs)))

/-- The modifier-validation loop of `parse_hotkey` (lines 84-92): walk the
leading tokens, canonicalise "win" to "cmd", fail on the first token whose
canonical form is not a `_MODIFIER_MAP` key.  The Python set of canonical
names is represented as the list of canonical names in order. -/
def validateModifiers : List String → Except String (List String)
  | [] => Except.ok []
  | m :: rest =>
    let canonical := canonicalMod m
    if modifierMapKeys.contains canonical then
      match validateModifiers rest with
      | Except.ok ms => Except.ok (canonical :: ms)
      | Except.error e => Except.error e
    else Except.error "Unknown modifier"

/-- Resolution of `parse_hotkey` on an already-tokenised string (the body
after line 77): empty check, modifier validation, then trigger lookup in
`_SPECIAL_KEYS`, modifier rejection, single-character literal. -/
def parseHotkeyTokens (parts : List String) :
    Except String (List String × PynputKey) :=
  if parts = [] || parts = [""] then Except.error "Empty hotkey string"
  else
    match validateModifiers parts.dropLast with
    | Except.error e => Except.error e
    | Except.ok modifiers =>
      let triggerPart := parts.getLastD ""
      match SPECIAL_KEYS.lookup triggerPart with
      | some k => Except.ok (modifiers, PynputKey.special k)
      | none =>
        if modifierMapKeys.contains triggerPart || triggerPart = "win" then
          Except.error "Trigger key is a modifier"
        else if triggerPart.length = 1 then
          Except.ok (modifiers, PynputKey.keyCode triggerPart.data.head?)
        else Except.error "Unknown trigger key"

/-- `untype.hotkey.parse_hotkey`. -/
def parse_hotkey (hotkeyStr : String) :
    Except String (List String × PynputKey) :=
  parseHotkeyTokens (hotkeyTokens hotkeyStr)

/-- The trailing token of a hotkey string (the trigger position). -/
def hotkeyTrailing (s : String) : String := (hotkeyTokens s).getLastD ""

/-- True when an `Except` value is a success. -/
def exceptIsOk {ε α : Type _} : Except ε α → Bool
  | Except.ok _ => true
  | Except.error _ => false

/-- The error condition stated by the spec for `parse_hotkey`, on the token
list: the string is empty (the single empty token), a preceding token is
not a recognised modifier, the trailing token is itself a modifier, or the
trailing token is otherwise unrecognised (not a named special key and not
a single character). -/
def hotkeyErrorTokens (ts : List String) : Bool :=
  ts = [""]
  || ts.dropLast.any (fun m => !(modifierMapKeys.contains (canonicalMod m)))
  || modifierMapKeys.contains (ts.getLastD "")
  || ((SPECIAL_KEYS.lookup (ts.getLastD "")).isNone
      && !(modifierMapKeys.contains (ts.getLastD ""))
      && (ts.getLastD "").length != 1)

/-- The spec's error condition for `parse_hotkey` on the raw string. -/
def hotkeyErrorCond (s : String) : Bool :=
  hotkeyErrorTokens (hotkeyTokens s)

/-- Configuration of a `HotkeyListener`: parsed modifier set, trigger key,
and interaction mode ("toggle" or "hold"). -/
structure HKConfig where
  modifiers : List String
  trigger : PynputKey
  mode : String
deriving DecidableEq, Repr

/-- Mutable state of a `HotkeyListener`: held canonical modifier names
(a set, represented as a duplicate-free list), physical trigger-held flag,
the `_active` combo flag and the toggle flag. -/
structure HKState where
  heldModifiers : List String
  triggerHeld : Bool
  active : Bool
  toggledOn : Bool
deriving DecidableEq, Repr

/-- `HotkeyListener.reset_toggle`. -/
def hkResetToggle (s : HKState) : HKState :=
  { s with toggledOn := false, active := false }

/-- `HotkeyListener._is_trigger`: a special trigger matches only the same
special key; a KeyCode trigger matches a KeyCode with the same character,
case-insensitively, when both characters are present. -/
def isTrigger (trigger key : PynputKey) : Bool :=
  match trigger with
  | PynputKey.special t =>
    match key with
    | PynputKey.special k => k = t
    | PynputKey.keyCode _ => false
  | PynputKey.keyCode tc =>
    match key, tc with
    | PynputKey.keyCode (some c), some t => c.toLower = t.toLower
    | _, _ => false

/-- The key-tracking prelude of `_on_key_press`: record a held modifier
(set add) and the trigger-held flag. -/
def hkTrack (cfg : HKConfig) (s : HKState) (key : PynputKey) : HKState :=
  let s :=
    match normalizeModifier key with
    | some m =>
      { s with heldModifiers :=
          if s.heldModifiers.contains m then s.heldModifiers
          else m :: s.heldModifiers }
    | none => s
  if isTrigger cfg.trigger key then { s with triggerHeld := true } else s

/-- The full-combo test of `_on_key_press`: trigger held and every
configured modifier currently held. -/
def comboPressed (cfg : HKConfig) (s : HKState) : Bool :=
  s.triggerHeld && cfg.modifiers.all (fun m => s.heldModifiers.contains m)

/-- Which callback a key event fired. -/
inductive HKFired where
  | press
  | release
deriving DecidableEq, Repr

/-- `HotkeyListener._on_key_press`. -/
def hkOnKeyPress (cfg : HKConfig) (s : HKState) (key : PynputKey) :
    HKState × Option HKFired :=
  let s1 := hkTrack cfg s key
  if cfg.mode = "toggle" then
    if comboPressed cfg s1 && !s1.active then
      if !s1.toggledOn then
        ({ s1 with active := true, toggledOn := true }, some HKFired.press)
      else
        ({ s1 with active := true, toggledOn := false }, some HKFired.release)
    else (s1, none)
  else
    if comboPressed cfg s1 && !s1.active then
      ({ s1 with active := true }, some HKFired.press)
    else (s1, none)

/-- `HotkeyListener._on_key_release`. -/
def hkOnKeyRelease (cfg : HKConfig) (s : HKState) (key : PynputKey) :
    HKState × Option HKFired :=
  if cfg.mode = "toggle" then
    let s :=
      if isTrigger cfg.trigger key then
        { s with active := false, triggerHeld := false }
      else s
    let s :=
      match normalizeModifier key with
      | some m => { s with heldModifiers := s.heldModifiers.erase m }
      | none => s
    (s, none)
  else
    let fire :=
      s.active &&
        (isTrigger cfg.trigger key ||
          (match normalizeModifier key with
           | some m => cfg.modifiers.contains m
           | none => false))
    let s := if fire then { s with active := false } else s
    let s :=
      match normalizeModifier key with
      | some m => { s with heldModifiers := s.heldModifiers.erase m }
      | none => s
    let s :=
      if isTrigger cfg.trigger key then { s with triggerHeld := false } else s
    (s, if fire then some HKFired.release else none)

/-- A raw keyboard-hook event. -/
inductive HKEvent where
  | keyDown (k : PynputKey)
  | keyUp (k : PynputKey)
deriving DecidableEq, Repr

/-- Dispatch one hook event. -/
def hkStep (cfg : HKConfig) (s : HKState) : HKEvent → HKState × Option HKFired
  | HKEvent.keyDown k => hkOnKeyPress cfg s k
  | HKEvent.keyUp k => hkOnKeyRelease cfg s k

/-- The sequence of callbacks fired while processing a list of hook events. -/
def hkFirings (cfg : HKConfig) (s : HKState) : List HKEvent → List HKFired
  | [] => []
  | e :: es =>
    match hkStep cfg s e with
    | (s', some f) => f :: hkFirings cfg s' es
    | (s', none) => hkFirings cfg s' es

/-- Behaviour of the underlying LLM network call in a given run:
it returns text, raises an ordinary exception, or raises
`KeyboardInterrupt` (the cancellation interrupt). -/
inductive LLMCall where
  | ok (out : String)
  | fail
  | interrupt
deriving DecidableEq, Repr

/-- The override-dict construction of `_run_llm` (lines 671-682): persona
prompt for the current mode (Python truthiness on the prompt string),
model (truthiness), temperature and max_tokens (is-not-None). -/
def buildOverrides (mode : String) (persona : Option Persona) : LLMOverrides :=
  match persona with
  | none => { systemPrompt := none, model := none, temperature := none, maxTokens := none }
  | some p =>
    let sys :=
      if mode = "polish" && p.promptPolish != "" then some p.promptPolish
      else if mode = "insert" && p.promptInsert != "" then some p.promptInsert
      else none
    { systemPrompt := sys,
      model := if p.model != "" then some p.model else none,
      temperature := p.temperature,
      maxTokens := p.maxTokens }

/-- `UnTypeApp._run_llm`: with no client configured, return the input
unchanged; in polish mode call `llm.polish(selected or "", text)`, else
`llm.insert(text)`; an ordinary exception falls back to the input text,
`KeyboardInterrupt` is re-raised (modelled as `Except.error ()`). -/
def runLLM (llmConfigured : Bool) (call : LLMCall) (mode : String)
    (selectedText : Option String) (text : String) (persona : Option Persona) :
    Except Unit String × List Effect :=
  if !llmConfigured then (Except.ok text, [])
  else
    let ov := buildOverrides mode persona
    let callEff :=
      if mode = "polish" then [Effect.llmPolish (selectedText.getD "") text ov]
      else [Effect.llmInsert text ov]
    match call with
    | LLMCall.ok out => (Except.ok out, callEff)
    | LLMCall.fail => (Except.ok text, callEff)
    | LLMCall.interrupt => (Except.error (), callEff)

/-- `UnTypeApp._save_interaction_state`: overwrite all `_last_*` fields from
the current interaction, re-query the caret, and show the ghost menu unless
diverting to the hold bubble. -/
def saveInteractionState (s : AppState) (caret : CaretPosition)
    (rawText result : String) (persona : Option Persona) (showGhost : Bool) :
    AppState × List Effect :=
  let s :=
    { s with lastRawText := some rawText, lastResult := some result,
             lastPersona := persona, lastMode := some s.mode,
             lastSelectedText := s.selectedText,
             lastOriginalClipboard := s.originalClipboard,
             lastTargetWindow := s.targetWindow,
             lastCaretX := caret.x, lastCaretY := caret.y }
  (s, if showGhost then [Effect.showGhostMenu caret.x caret.y] else [])

/-- `UnTypeApp._start_hwnd_watcher`: clear the mismatch flag, mark the
watcher active, spawn the polling thread. -/
def startHwndWatcher (s : AppState) : AppState × List Effect :=
  ({ s with windowMismatch := false, hwndWatchActive := true },
   [Effect.spawnThread "hwnd-watch"])

/-- One observation per watcher poll tick: the active flag as read after the
200 ms sleep (it may have been cleared concurrently) and the foreground
window returned by the poll. -/
structure WatchTick where
  activeAtCheck : Bool
  fg : WindowIdentity
deriving DecidableEq, Repr

/-- `UnTypeApp._watch_hwnd`: poll until the active flag is observed clear
(modelled by the tick where `activeAtCheck` is false, or the tick list
running out at the loop guard); on the first foreground mismatch set the
sticky flag, fly the capsule to the corner, and terminate.  Returns the
final value of `_window_mismatch`. -/
def watchHwnd (target : Option WindowIdentity) :
    Bool → List WatchTick → Bool × List Effect
  | mismatch, [] => (mismatch, [])
  | mismatch, tick :: rest =>
    if !tick.activeAtCheck then (mismatch, [])
    else
      match target with
      | some t =>
        if !(verify_foreground_window tick.fg t) then (true, [Effect.flyToCorner])
        else watchHwnd target mismatch rest
      | none => watchHwnd target mismatch rest

/-- `UnTypeApp._on_hotkey_press` (the hook-thread entry point): non-blocking
lock acquire; on failure log and return; on success clear the cancel flag,
dismiss the ghost menu, flush any held result to the clipboard, mark the
press active, clear the recording-started event and spawn the setup
worker. -/
def onHotkeyPress (s : AppState) : AppState × List Effect :=
  if s.pipelineLockHeld then (s, [])
  else
    let s := { s with pipelineLockHeld := true, cancelRequested := false }
    let eff0 := [Effect.hideGhostMenu]
    let (s, eff1) :=
      match s.heldResult with
      | some r =>
        ({ s with heldResult := none, heldClipboard := none },
         [Effect.copyToClipboard r, Effect.hideHoldBubble])
      | none => (s, [])
    ({ s with pressActive := true, recordingStartedSet := false },
     eff0 ++ eff1 ++ [Effect.spawnThread "rec-start"])

/-- Environment of one `_process_with_personas` run: cancel-flag arrival
points, the LLM behaviour, a possible concurrent watcher mismatch during
the LLM call, and the platform query results. -/
structure PersonasEnv where
  cancelBeforeLLM : Bool
  cancelAfterLLM : Bool
  llmConfigured : Bool
  llmCall : LLMCall
  watcherFlagsMismatch : Bool
  fgAtVerify : WindowIdentity
  caretAtSave : CaretPosition
deriving DecidableEq, Repr

/-- `UnTypeApp._process_with_personas` (the fast lane, personas
configured). -/
def processWithPersonas (env : PersonasEnv) (text : String) (s : AppState) :
    AppState × List Effect :=
  let persona := s.preselectedPersona
  let s := { s with preselectedPersona := none }
  let s := { s with hwndWatchActive := false }
  let atCorner := s.windowMismatch
  let eff0 :=
    (if atCorner then [Effect.overlayUpdateStatus "Processing..."]
     else [Effect.overlayShow s.caretX s.caretY "Processing..."])
    ++ [Effect.trayStatus "Processing..."]
  let sW := (startHwndWatcher s).1
  let effW := (startHwndWatcher s).2
  let s := sW
  let s := if env.cancelBeforeLLM then { s with cancelRequested := true } else s
  if s.cancelRequested then
    ({ s with hwndWatchActive := false },
     eff0 ++ effW ++ [Effect.overlayHide, Effect.trayStatus "Ready"])
  else
    let llmR := runLLM env.llmConfigured env.llmCall s.mode s.selectedText text persona
    let effL := llmR.2
    match llmR.1 with
    | Except.error _ =>
      ({ s with hwndWatchActive := false },
       eff0 ++ effW ++ effL ++ [Effect.overlayHide, Effect.trayStatus "Ready"])
    | Except.ok result =>
      let s := if env.watcherFlagsMismatch then { s with windowMismatch := true } else s
      let s := if env.cancelAfterLLM then { s with cancelRequested := true } else s
      if s.cancelRequested then
        ({ s with hwndWatchActive := false },
         eff0 ++ effW ++ effL ++ [Effect.overlayHide, Effect.trayStatus "Ready"])
      else
        let s := { s with hwndWatchActive := false }
        if !(verifyWindowSafety s.targetWindow s.windowMismatch env.fgAtVerify) then
          let sv := saveInteractionState s env.caretAtSave text result persona false
          let s := sv.1
          let s := { s with heldResult := some result, heldClipboard := s.originalClipboard }
          (s, eff0 ++ effW ++ effL ++ sv.2
              ++ [Effect.flyToHoldBubble result, Effect.trayStatus "Ready"])
        else
          let effI := [Effect.injectText result s.originalClipboard]
          let sv := saveInteractionState s env.caretAtSave text result persona true
          (sv.1, eff0 ++ effW ++ effL ++ effI ++ sv.2
                 ++ [Effect.overlayHide, Effect.trayStatus "Ready"])

/-- Environment of one `_process_with_staging` run: the staging editor's
result, cancel-flag arrival points, LLM behaviour, concurrent watcher
mismatch during the LLM call, and platform query results. -/
structure StagingEnv where
  stagingText : String
  stagingAction : String
  cancelDuringStaging : Bool
  cancelAfterLLM : Bool
  llmConfigured : Bool
  llmCall : LLMCall
  watcherFlagsMismatch : Bool
  fgAtVerify : WindowIdentity
  caretAtSave : CaretPosition
deriving DecidableEq, Repr

/-- `UnTypeApp._process_with_staging` (no personas configured). -/
def processWithStaging (env : StagingEnv) (text : String) (s : AppState) :
    AppState × List Effect :=
  let s := { s with hwndWatchActive := false }
  let atCorner := s.windowMismatch
  let eff0 := [Effect.trayStatus "Ready"]
  let effShow :=
    if atCorner then [Effect.showStaging text 0 0 true]
    else [Effect.showStaging text s.caretX s.caretY false]
  let editedText := env.stagingText
  let action := env.stagingAction
  if action = "cancel" then (s, eff0 ++ effShow)
  else
    let s := if env.cancelDuringStaging then { s with cancelRequested := true } else s
    if s.cancelRequested then (s, eff0 ++ effShow)
    else
      let effSleep := [Effect.sleepMs 150]
      if action = "raw" then
        let effI := [Effect.injectText editedText s.originalClipboard]
        let sv := saveInteractionState s env.caretAtSave text editedText none true
        (sv.1, eff0 ++ effShow ++ effSleep ++ effI ++ sv.2)
      else
        let effP := [Effect.overlayShow s.caretX s.caretY "Processing...",
                     Effect.trayStatus "Processing..."]
        let sW := (startHwndWatcher s).1
        let effW := (startHwndWatcher s).2
        let s := sW
        let llmR := runLLM env.llmConfigured env.llmCall s.mode s.selectedText editedText none
        let effL := llmR.2
        match llmR.1 with
        | Except.error _ =>
          ({ s with hwndWatchActive := false },
           eff0 ++ effShow ++ effSleep ++ effP ++ effW ++ effL
             ++ [Effect.overlayHide, Effect.trayStatus "Ready"])
        | Except.ok result =>
          let s := if env.watcherFlagsMismatch then { s with windowMismatch := true } else s
          let s := if env.cancelAfterLLM then { s with cancelRequested := true } else s
          if s.cancelRequested then
            ({ s with hwndWatchActive := false },
             eff0 ++ effShow ++ effSleep ++ effP ++ effW ++ effL
               ++ [Effect.overlayHide, Effect.trayStatus "Ready"])
          else
            let s := { s with hwndWatchActive := false }
            if !(verifyWindowSafety s.targetWindow s.windowMismatch env.fgAtVerify) then
              let sv := saveInteractionState s env.caretAtSave text result none false
              let s := sv.1
              let s := { s with heldResult := some result,
                                heldClipboard := s.originalClipboard }
              (s, eff0 ++ effShow ++ effSleep ++ effP ++ effW ++ effL ++ sv.2
                  ++ [Effect.flyToHoldBubble result, Effect.trayStatus "Ready"])
            else
              let effI := [Effect.injectText result s.originalClipboard]
              let sv := saveInteractionState s env.caretAtSave text result none true
              (sv.1, eff0 ++ effShow ++ effSleep ++ effP ++ effW ++ effL ++ effI ++ sv.2
                     ++ [Effect.overlayHide, Effect.trayStatus "Ready"])

/-- Environment of one `_process_pipeline` run: the event-wait result,
cancel-flag arrival points before each checkpoint read, recorder and
engine facts, the transcription result, and the environments of the
branch taken after transcription.  The batch `transcribe` call may raise
(`batchResult = none`), which propagates to the outer handler; the
bounded-timeout cleanup helpers are represented by their effects. -/
structure PipelineEnv where
  recordingStartedInTime : Bool
  cancelAfterStart : Bool
  recorderRecording : Bool
  cancelBeforeStop : Bool
  cancelAfterStop : Bool
  noSamples : Bool
  cancelBeforeSTT : Bool
  backendRealtime : Bool
  realtimeEngine : Bool
  realtimeText : String
  batchResult : Option String
  cancelAfterSTT : Bool
  activePersonas : Bool
  personasEnv : PersonasEnv
  stagingEnv : StagingEnv
deriving DecidableEq, Repr

/-- Effects of the `_cleanup_resources` helper submitted at the two early
cancel checkpoints of `_process_pipeline`: abort the recorder if it is
recording, stop a realtime STT session if one exists. -/
def cleanupResourcesEffects (recording realtimeEngine : Bool) : List Effect :=
  (if recording then [Effect.abortRecorder] else [])
  ++ (if realtimeEngine then [Effect.stopSTTSession] else [])

/-- The tail of the `try` body of `_process_pipeline` once a transcript is
in hand (lines 615-639): post-STT cancel checkpoint, empty-transcription
abort, digit-interceptor/persona-bar teardown, then the persona fast lane
or the staging branch.  The third component is True when the body returned
normally (no exception propagating). -/
def pipelineAfterText (env : PipelineEnv) (s : AppState) (text : String)
    (effAcc : List Effect) : AppState × List Effect × Bool :=
  let s := if env.cancelAfterSTT then { s with cancelRequested := true } else s
  if s.cancelRequested then (s, effAcc, true)
  else if text = "" then
    ({ s with digitInterceptorActive := false },
     effAcc ++ [Effect.hideRecordingPersonas, Effect.hideRealtimePreview,
                Effect.trayStatus "Ready", Effect.overlayHide], true)
  else
    let s := { s with digitInterceptorActive := false }
    let effAcc := effAcc ++ [Effect.hideRecordingPersonas]
    if env.activePersonas then
      let r := processWithPersonas env.personasEnv text s
      (r.1, effAcc ++ r.2, true)
    else
      let r := processWithStaging env.stagingEnv text s
      (r.1, effAcc ++ r.2, true)

/-- The `try` body of `_process_pipeline` (lines 467-639).  The third
component is True when the body returned normally and False when an
exception (a batch `transcribe` failure) propagates to the `except`
handler. -/
def processPipelineTry (env : PipelineEnv) (s : AppState) :
    AppState × List Effect × Bool :=
  if !env.recordingStartedInTime then
    ({ s with digitInterceptorActive := false },
     [Effect.hideRecordingPersonas, Effect.trayStatus "Error",
      Effect.overlayUpdateStatus "Timeout", Effect.overlayHide], true)
  else
  let s := if env.cancelAfterStart then { s with cancelRequested := true } else s
  if s.cancelRequested then
    (s, cleanupResourcesEffects env.recorderRecording env.realtimeEngine, true)
  else
  if !env.recorderRecording then
    ({ s with digitInterceptorActive := false },
     [Effect.hideRecordingPersonas, Effect.trayStatus "Ready",
      Effect.overlayHide], true)
  else
  let s := if env.cancelBeforeStop then { s with cancelRequested := true } else s
  if s.cancelRequested then
    ({ s with digitInterceptorActive := false },
     cleanupResourcesEffects env.recorderRecording env.realtimeEngine
       ++ [Effect.hideRecordingPersonas, Effect.hideRealtimePreview,
           Effect.trayStatus "Ready", Effect.overlayHide], true)
  else
  let effStop := [Effect.stopTimeoutMonitor, Effect.stopRecorder]
  let s := if env.cancelAfterStop then { s with cancelRequested := true } else s
  if s.cancelRequested then (s, effStop, true)
  else
  if env.noSamples then
    ({ s with digitInterceptorActive := false },
     effStop ++ [Effect.hideRecordingPersonas, Effect.hideRealtimePreview,
                 Effect.trayStatus "Ready", Effect.overlayHide], true)
  else
  let s := if env.cancelBeforeSTT then { s with cancelRequested := true } else s
  if s.cancelRequested then
    ({ s with digitInterceptorActive := false },
     effStop ++ (if env.realtimeEngine then [Effect.stopSTTSession] else [])
       ++ [Effect.hideRecordingPersonas, Effect.hideRealtimePreview,
           Effect.trayStatus "Ready", Effect.overlayHide], true)
  else
  if env.backendRealtime then
    let text := pyStrip (if env.realtimeEngine then env.realtimeText else "")
    pipelineAfterText env s text
      (effStop ++ (if env.realtimeEngine then [Effect.stopSTTSession] else []))
  else
    let effT := effStop ++ [Effect.trayStatus "Transcribing...",
                            Effect.overlayUpdateStatus "Transcribing..."]
    match env.batchResult with
    | none => (s, effT, false)
    | some t => pipelineAfterText env s (pyStrip t) effT

/-- The `except Exception` handler of `_process_pipeline` (lines 641-651). -/
def processPipelineExcept (s : AppState) : AppState × List Effect :=
  ({ s with hwndWatchActive := false, digitInterceptorActive := false },
   [Effect.trayStatus "Error", Effect.overlayUpdateStatus "Error",
    Effect.sleepMs 2000, Effect.trayStatus "Ready", Effect.overlayHide,
    Effect.hideRecordingPersonas])

/-- The `finally` block of `_process_pipeline` and `_cleanup_after_cancel`
(lines 652-656 and 331-337): deactivate watcher and digit interception,
clear the cancel flag, release the pipeline lock. -/
def pipelineFinalize (s : AppState) : AppState :=
  { s with hwndWatchActive := false, digitInterceptorActive := false,
           cancelRequested := false, pipelineLockHeld := false }

/-- `UnTypeApp._process_pipeline`: try body, `except` handler on exception,
then the unconditional `finally`. -/
def processPipeline (env : PipelineEnv) (s : AppState) : AppState × List Effect :=
  let r := processPipelineTry env s
  let h := if r.2.2 then (r.1, ([] : List Effect)) else processPipelineExcept r.1
  (pipelineFinalize h.1, r.2.1 ++ h.2)

/-- Environment of one `_cleanup_after_cancel` run. -/
structure CleanupEnv where
  recordingStartedInTime : Bool
  recorderRecording : Bool
  realtimeEngine : Bool
deriving DecidableEq, Repr

/-- `UnTypeApp._cleanup_after_cancel`: wait for the setup thread, abort the
recorder and stop any realtime STT session (best effort), then the same
`finally` as the pipeline worker. -/
def cleanupAfterCancel (env : CleanupEnv) (s : AppState) : AppState × List Effect :=
  let eff :=
    (if env.recorderRecording then [Effect.abortRecorder] else [])
    ++ (if env.realtimeEngine then [Effect.stopSTTSession] else [])
  (pipelineFinalize s, eff)

/-- Environment of one `_start_recording` run (errors raised by the
collaborator calls are not modelled; the run described is one in which
each external call returns). -/
structure RecEnv where
  fgWindow : WindowIdentity
  caret : CaretPosition
  backendRealtime : Bool
  realtimeEngine : Bool
  sessionReady : Bool
  grabSelected : Option String
  grabClipboard : Option String
  activePersonas : List Persona
  lastSelectedPersona : String
deriving DecidableEq, Repr

/-- First index and value in a persona list whose id matches (the
auto-select loop of `_start_recording`, lines 423-429). -/
def findPersonaIdx (ps : List Persona) (pid : String) : Option (Nat × Persona) :=
  ps.enum.find? (fun q => q.2.id = pid)

/-- `UnTypeApp._start_recording` (the press-side setup worker): capture the
target window and caret, optionally open the realtime session, start the
recorder, show the persona bar, probe the selection to pick the mode,
start the watcher, and finally signal the recording-started event. -/
def startRecording (env : RecEnv) (s : AppState) : AppState × List Effect :=
  let s := { s with targetWindow := some env.fgWindow,
                    caretX := env.caret.x, caretY := env.caret.y }
  let sessionReady := env.backendRealtime && env.realtimeEngine && env.sessionReady
  let effRT :=
    if env.backendRealtime && env.realtimeEngine then
      [Effect.overlayShow env.caret.x env.caret.y "正在连接服务器..."]
      ++ (if env.sessionReady then []
          else [Effect.overlayUpdateStatus "连接失败，请检查网络"])
    else []
  let effStart := [Effect.startRecorder, Effect.trayStatus "Recording..."]
  let effCap :=
    if env.backendRealtime && sessionReady then
      [Effect.overlayUpdateStatus "Recording..."]
    else [Effect.overlayShow env.caret.x env.caret.y "Recording..."]
  let effTim := [Effect.startTimeoutMonitor]
  let s := { s with preselectedPersona := none }
  let persR :=
    if env.activePersonas ≠ [] then
      let s1 := { s with digitInterceptorActive := true }
      let selR :=
        if env.lastSelectedPersona ≠ "" then
          match findPersonaIdx env.activePersonas env.lastSelectedPersona with
          | some ip =>
            ({ s1 with preselectedPersona := some ip.2 },
             [Effect.selectRecordingPersona ip.1])
          | none => (s1, ([] : List Effect))
        else (s1, ([] : List Effect))
      (selR.1, [Effect.showRecordingPersonas] ++ selR.2)
    else (s, ([] : List Effect))
  let s := persR.1
  let effPrev :=
    if env.backendRealtime && sessionReady then [Effect.showRealtimePreview] else []
  let s := { s with selectedText := env.grabSelected,
                    originalClipboard := env.grabClipboard }
  let s :=
    if pyTruthy s.selectedText then { s with mode := "polish" }
    else { s with mode := "insert" }
  let sW := (startHwndWatcher s).1
  let effW := (startHwndWatcher s).2
  ({ sW with recordingStartedSet := true },
   effRT ++ effStart ++ effCap ++ effTim ++ persR.2 ++ effPrev ++ effW)

/-- Environment of one ghost-menu action run: the foreground window at the
undo check, the staging result for revert, the persona list, LLM behaviour,
concurrent watcher mismatch during the LLM call, and platform results. -/
structure GhostEnv where
  fgAtUndoCheck : WindowIdentity
  stagingText : String
  stagingAction : String
  personas : List Persona
  llmConfigured : Bool
  llmCall : LLMCall
  watcherFlagsMismatch : Bool
  fgAtVerify : WindowIdentity
  caretAtSave : CaretPosition
deriving DecidableEq, Repr

/-- The undo step shared by the ghost actions: simulate Ctrl+Z only if the
recorded target window is still foreground. -/
def ghostUndoEffects (target : Option WindowIdentity) (fg : WindowIdentity) :
    List Effect :=
  match target with
  | some t => if verify_foreground_window fg t then [Effect.simulateUndo] else []
  | none => []

/-- The `try` body of `_on_ghost_revert` after the lock is acquired. -/
def onGhostRevertBody (env : GhostEnv) (rawText : String) (s : AppState) :
    AppState × List Effect :=
  let target := s.lastTargetWindow
  let effUndo := ghostUndoEffects target env.fgAtUndoCheck
  let s := { s with mode := pyStrOr s.lastMode "insert",
                    selectedText := s.lastSelectedText,
                    originalClipboard := s.lastOriginalClipboard,
                    targetWindow := target,
                    caretX := s.lastCaretX, caretY := s.lastCaretY,
                    windowMismatch := false }
  let s := { s with lastRawText := none, lastResult := none }
  let effStg := [Effect.showStaging rawText s.caretX s.caretY false]
  let editedText := env.stagingText
  let action := env.stagingAction
  if action = "cancel" then (s, effUndo ++ effStg)
  else
    let effSleep := [Effect.sleepMs 150]
    let persona :=
      if "persona:".data.isPrefixOf action.data then
        env.personas.find? (fun p => p.id = String.mk (action.data.drop 8))
      else none
    let action := if "persona:".data.isPrefixOf action.data then "refine" else action
    if action = "raw" then
      let effI := [Effect.injectText editedText s.originalClipboard]
      let sv := saveInteractionState s env.caretAtSave rawText editedText none true
      (sv.1, effUndo ++ effStg ++ effSleep ++ effI ++ sv.2)
    else
      let effP := [Effect.overlayShow s.caretX s.caretY "Processing...",
                   Effect.trayStatus "Processing..."]
      let sW := (startHwndWatcher s).1
      let effW := (startHwndWatcher s).2
      let s := sW
      let llmR := runLLM env.llmConfigured env.llmCall s.mode s.selectedText editedText persona
      let effL := llmR.2
      match llmR.1 with
      | Except.error _ =>
        ({ s with hwndWatchActive := false },
         effUndo ++ effStg ++ effSleep ++ effP ++ effW ++ effL
           ++ [Effect.overlayHide, Effect.trayStatus "Ready"])
      | Except.ok result =>
        let s := if env.watcherFlagsMismatch then { s with windowMismatch := true } else s
        let s := { s with hwndWatchActive := false }
        if !(verifyWindowSafety s.targetWindow s.windowMismatch env.fgAtVerify) then
          let sv := saveInteractionState s env.caretAtSave rawText result persona false
          let s := sv.1
          let s := { s with heldResult := some result,
                            heldClipboard := s.originalClipboard }
          (s, effUndo ++ effStg ++ effSleep ++ effP ++ effW ++ effL ++ sv.2
              ++ [Effect.flyToHoldBubble result, Effect.trayStatus "Ready"])
        else
          let effI := [Effect.injectText result s.originalClipboard]
          let sv := saveInteractionState s env.caretAtSave rawText result persona true
          (sv.1, effUndo ++ effStg ++ effSleep ++ effP ++ effW ++ effL ++ effI ++ sv.2
                 ++ [Effect.overlayHide, Effect.trayStatus "Ready"])

/-- `UnTypeApp._on_ghost_revert`: no saved state or busy lock is a no-op;
otherwise run the body under the lock and release it (with the watcher
deactivated) in the `finally`. -/
def onGhostRevert (env : GhostEnv) (s : AppState) : AppState × List Effect :=
  match s.lastRawText with
  | none => (s, [])
  | some rawText =>
    if s.pipelineLockHeld then (s, [])
    else
      let r := onGhostRevertBody env rawText { s with pipelineLockHeld := true }
      ({ r.1 with hwndWatchActive := false, pipelineLockHeld := false }, r.2)

/-- The `try` body of `_on_ghost_regenerate` after the lock is acquired. -/
def onGhostRegenerateBody (env : GhostEnv) (rawText : String)
    (persona : Option Persona) (s : AppState) : AppState × List Effect :=
  let target := s.lastTargetWindow
  let effUndo := ghostUndoEffects target env.fgAtUndoCheck
  let s := { s with mode := pyStrOr s.lastMode "insert",
                    selectedText := s.lastSelectedText,
                    originalClipboard := s.lastOriginalClipboard,
                    targetWindow := target,
                    caretX := s.lastCaretX, caretY := s.lastCaretY,
                    windowMismatch := false }
  let effP := [Effect.overlayShow s.caretX s.caretY "Processing...",
               Effect.trayStatus "Processing..."]
  let sW := (startHwndWatcher s).1
  let effW := (startHwndWatcher s).2
  let s := sW
  let llmR := runLLM env.llmConfigured env.llmCall s.mode s.selectedText rawText persona
  let effL := llmR.2
  match llmR.1 with
  | Except.error _ =>
    ({ s with hwndWatchActive := false },
     effUndo ++ effP ++ effW ++ effL ++ [Effect.overlayHide, Effect.trayStatus "Ready"])
  | Except.ok result =>
    let s := if env.watcherFlagsMismatch then { s with windowMismatch := true } else s
    let s := { s with hwndWatchActive := false }
    if !(verifyWindowSafety s.targetWindow s.windowMismatch env.fgAtVerify) then
      let sv := saveInteractionState s env.caretAtSave rawText result persona false
      let s := sv.1
      let s := { s with heldResult := some result,
                        heldClipboard := s.originalClipboard }
      (s, effUndo ++ effP ++ effW ++ effL ++ sv.2
          ++ [Effect.flyToHoldBubble result, Effect.trayStatus "Ready"])
    else
      let effI := [Effect.injectText result s.originalClipboard]
      let sv := saveInteractionState s env.caretAtSave rawText result persona true
      (sv.1, effUndo ++ effP ++ effW ++ effL ++ effI ++ sv.2
             ++ [Effect.overlayHide, Effect.trayStatus "Ready"])

/-- `UnTypeApp._on_ghost_regenerate`. -/
def onGhostRegenerate (env : GhostEnv) (s : AppState) : AppState × List Effect :=
  match s.lastRawText with
  | none => (s, [])
  | some rawText =>
    if s.pipelineLockHeld then (s, [])
    else
      let r := onGhostRegenerateBody env rawText s.lastPersona
        { s with pipelineLockHeld := true }
      ({ r.1 with hwndWatchActive := false, pipelineLockHeld := false }, r.2)

/-- `UnTypeApp._on_ghost_use_raw`: undo if the recorded target window is
still foreground, restore the clipboard context, then inject the raw
transcript with no window-safety check, and release the lock. -/
def onGhostUseRaw (env : GhostEnv) (s : AppState) : AppState × List Effect :=
  match s.lastRawText with
  | none => (s, [])
  | some rawText =>
    if s.pipelineLockHeld then (s, [])
    else
      let s := { s with pipelineLockHeld := true }
      let target := s.lastTargetWindow
      let effUndo := ghostUndoEffects target env.fgAtUndoCheck
      let s := { s with originalClipboard := s.lastOriginalClipboard,
                        targetWindow := target }
      let effI := [Effect.injectText rawText s.originalClipboard]
      let sv := saveInteractionState s env.caretAtSave rawText rawText none true
      ({ sv.1 with pipelineLockHeld := false }, effUndo ++ effI ++ sv.2)

deriving instance DecidableEq for Except

/-- Window fixture: the editor the session targets. -/
def wEditor : WindowIdentity := ⟨100, "Editor", 42⟩

/-- Window fixture: an unrelated window the user switched to. -/
def wBrowser : WindowIdentity := ⟨200, "Browser", 77⟩

/-- Caret fixture. -/
def caret0 : CaretPosition := ⟨10, 20, true⟩

/-- A quiescent orchestrator state used by concrete runs. -/
def baseState : AppState :=
  { mode := "insert", selectedText := none, originalClipboard := some "clip",
    preselectedPersona := none, targetWindow := some wEditor, heldResult := none,
    heldClipboard := none, windowMismatch := false, hwndWatchActive := false,
    caretX := 10, caretY := 20, pipelineLockHeld := false, pressActive := false,
    recordingStartedSet := true, cancelRequested := false,
    digitInterceptorActive := false, lastRawText := none, lastResult := none,
    lastPersona := none, lastMode := none, lastSelectedText := none,
    lastOriginalClipboard := none, lastTargetWindow := none,
    lastCaretX := 0, lastCaretY := 0 }

/-- Fast-lane environment fixture: a successful LLM run during which the
watcher flagged a mismatch. -/
def envC10 : PersonasEnv :=
  { cancelBeforeLLM := false, cancelAfterLLM := false, llmConfigured := true,
    llmCall := LLMCall.ok "out", watcherFlagsMismatch := true,
    fgAtVerify := wBrowser, caretAtSave := caret0 }

/-- State fixture with no target-window snapshot. -/
def sC10 : AppState := { baseState with targetWindow := none }

/-- Staging environment fixture: the user confirms refinement and the LLM
call fails. -/
def envC6 : StagingEnv :=
  { stagingText := "edited text", stagingAction := "refine",
    cancelDuringStaging := false, cancelAfterLLM := false,
    llmConfigured := true, llmCall := LLMCall.fail,
    watcherFlagsMismatch := false, fgAtVerify := wEditor, caretAtSave := caret0 }

/-- Recording-setup environment fixture: a non-empty selection is grabbed. -/
def envC7 : RecEnv :=
  { fgWindow := wEditor, caret := caret0, backendRealtime := false,
    realtimeEngine := false, sessionReady := false,
    grabSelected := some "teh quick fox", grabClipboard := some "prior",
    activePersonas := [], lastSelectedPersona := "" }

/-- Recording-setup environment fixture: the probe found no selection. -/
def envC7n : RecEnv := { envC7 with grabSelected := none }

/-- State fixture: the watcher flagged a window mismatch during recording. -/
def sMismatch : AppState := { baseState with windowMismatch := true }

/-- Staging environment fixture: the user chose the raw action. -/
def envC1raw : StagingEnv :=
  { stagingText := "hello", stagingAction := "raw", cancelDuringStaging := false,
    cancelAfterLLM := false, llmConfigured := true, llmCall := LLMCall.ok "x",
    watcherFlagsMismatch := false, fgAtVerify := wBrowser, caretAtSave := caret0 }

/-- Fast-lane environment fixture: LLM succeeds and the original window is
foreground again at the final check. -/
def envC2 : PersonasEnv :=
  { cancelBeforeLLM := false, cancelAfterLLM := false, llmConfigured := true,
    llmCall := LLMCall.ok "polished", watcherFlagsMismatch := false,
    fgAtVerify := wEditor, caretAtSave := caret0 }

/-- Staging environment fixture: refine action succeeds but the watcher
flags a mismatch during the LLM call. -/
def envC5 : StagingEnv :=
  { stagingText := "edited", stagingAction := "refine",
    cancelDuringStaging := false, cancelAfterLLM := false,
    llmConfigured := true, llmCall := LLMCall.ok "polished",
    watcherFlagsMismatch := true, fgAtVerify := wEditor, caretAtSave := caret0 }

/-- Fast-lane environment fixture: a mismatch is flagged during the LLM
call. -/
def envC1p : PersonasEnv :=
  { cancelBeforeLLM := false, cancelAfterLLM := false, llmConfigured := true,
    llmCall := LLMCall.ok "res", watcherFlagsMismatch := true,
    fgAtVerify := wEditor, caretAtSave := caret0 }

/-- Ghost environment fixture: refine action; the foreground window at the
final check is unrelated. -/
def envC1g : GhostEnv :=
  { fgAtUndoCheck := wEditor, stagingText := "ghost edit",
    stagingAction := "refine", personas := [], llmConfigured := true,
    llmCall := LLMCall.ok "res", watcherFlagsMismatch := false,
    fgAtVerify := wBrowser, caretAtSave := caret0 }

/-- Ghost environment fixture: the user picks the raw action in the revert
staging editor. -/
def envC1gr : GhostEnv := { envC1g with stagingAction := "raw" }

/-- State fixture: a completed interaction is recorded for the ghost menu. -/
def sGhost : AppState :=
  { baseState with lastRawText := some "raw words", lastResult := some "old result",
                   lastMode := some "insert", lastSelectedText := none,
                   lastOriginalClipboard := some "prior clip",
                   lastTargetWindow := some wEditor, lastCaretX := 5, lastCaretY := 6 }

/-- Staging environment fixture: the user pressed Escape. -/
def envC5c : StagingEnv := { envC5 with stagingAction := "cancel" }

/-- Fast-lane environment fixture: cancellation arrives before the LLM
call. -/
def envC2c : PersonasEnv := { envC2 with cancelBeforeLLM := true }

/-- Fast-lane environment fixture: the user cancels mid-LLM, interrupting
the request. -/
def envC2i : PersonasEnv := { envC2 with llmCall := LLMCall.interrupt }

/-- Pipeline environment fixture: the recorder returned an empty buffer. -/
def envPipeEmpty : PipelineEnv :=
  { recordingStartedInTime := true, cancelAfterStart := false,
    recorderRecording := true, cancelBeforeStop := false,
    cancelAfterStop := false, noSamples := true, cancelBeforeSTT := false,
    backendRealtime := false, realtimeEngine := false, realtimeText := "",
    batchResult := some "hello", cancelAfterSTT := false,
    activePersonas := false, personasEnv := envC2, stagingEnv := envC1raw }

/-- Listener fixture: bare f6 trigger in toggle mode. -/
def cfgF6 : HKConfig :=
  { modifiers := [], trigger := PynputKey.special PKey.f6, mode := "toggle" }

/-- Listener state fixture: mid-recording toggle state. -/
def hkS0 : HKState :=
  { heldModifiers := [], triggerHeld := false, active := false, toggledOn := true }

/-- Claim C3: at most one pipeline session is in flight; a hotkey press that
arrives while `pipelineLock` is held fails the non-blocking acquire and is
a no-op — the handler returns with the state unchanged (cancellation flag
not cleared, `HeldResult` untouched, recording not started) and performs
no external calls (in particular, no worker thread is spawned); the press
is dropped, not queued. -/
theorem hotkey_press_while_locked_is_noop (s : AppState)
    (h : s.pipelineLockHeld = true) : onHotkeyPress s = (s, []) := by
  simp [onHotkeyPress, h]

/-- Witness for C3 at a concrete locked state. -/
theorem hotkey_press_while_locked_is_noop_witness :
    ({ baseState with pipelineLockHeld := true } : AppState).pipelineLockHeld = true ∧
    onHotkeyPress { baseState with pipelineLockHeld := true } =
      ({ baseState with pipelineLockHeld := true }, []) :=
  ⟨rfl, hotkey_press_while_locked_is_noop _ rfl⟩

/-- Claim C4: on every exit path of the pipeline worker `_process_pipeline`
and of the cancel-cleanup worker `_cleanup_after_cancel` — normal
completion, every early return at a cancellation checkpoint or
empty-result abort, and the exception path — the `finally` block runs: the
watcher is deactivated, digit interception is deactivated, the
cancellation flag is cleared, and the pipeline lock is released. -/
theorem pipeline_always_finalizes :
    (∀ (env : PipelineEnv) (s : AppState),
       (processPipeline env s).1.hwndWatchActive = false ∧
       (processPipeline env s).1.digitInterceptorActive = false ∧
       (processPipeline env s).1.cancelRequested = false ∧
       (processPipeline env s).1.pipelineLockHeld = false) ∧
    (∀ (env : CleanupEnv) (s : AppState),
       (cleanupAfterCancel env s).1.hwndWatchActive = false ∧
       (cleanupAfterCancel env s).1.digitInterceptorActive = false ∧
       (cleanupAfterCancel env s).1.cancelRequested = false ∧
       (cleanupAfterCancel env s).1.pipelineLockHeld = false) :=
  ⟨fun _ _ => ⟨rfl, rfl, rfl, rfl⟩, fun _ _ => ⟨rfl, rfl, rfl, rfl⟩⟩

/-- Claim C10 (implicit): `_verify_window_safety` returns True whenever no
target-window snapshot exists, regardless of the mismatch flag and of the
actual foreground window; consequently, on a run whose state carries no
snapshot, the fast lane injects with no foreground-window verification at
all. -/
theorem verify_window_safety_vacuous_without_snapshot :
    (∀ (mismatch : Bool) (fg : WindowIdentity),
       verifyWindowSafety none mismatch fg = true) ∧
    (∀ (env : PersonasEnv) (text : String) (s : AppState) (r : String),
       s.targetWindow = none →
       s.cancelRequested = false →
       env.cancelBeforeLLM = false →
       env.cancelAfterLLM = false →
       (runLLM env.llmConfigured env.llmCall s.mode s.selectedText text
          s.preselectedPersona).1 = Except.ok r →
       Effect.injectText r s.originalClipboard ∈ (processWithPersonas env text s).2) := by
  constructor
  · intro mismatch fg; rfl
  · intro env text s r htw hc hb ha hllm
    cases hwm : env.watcherFlagsMismatch <;>
      simp [processWithPersonas, startHwndWatcher, saveInteractionState,
            verifyWindowSafety, hb, hc, ha, htw, hllm, hwm]

theorem validateModifiers_isOk_eq (l : List String) :
    exceptIsOk (validateModifiers l) =
      l.all (fun m => modifierMapKeys.contains (canonicalMod m)) := by
  induction l with
  | nil => rfl
  | cons m rest ih =>
    simp only [validateModifiers, List.all_cons]
    by_cases h : modifierMapKeys.contains (canonicalMod m) = true
    · rw [if_pos h, h, Bool.true_and]
      cases hv : validateModifiers rest with
      | ok ms =>
        rw [hv] at ih
        rw [← ih]
        try rfl
      | error e =>
        rw [hv] at ih
        rw [← ih]
        try rfl
    · have h' : modifierMapKeys.contains (canonicalMod m) = false := by
        simpa using h
      rw [if_neg h, h', Bool.false_and]
      rfl

theorem validateModifiers_ok_val (l : List String) (v : List String)
    (h : validateModifiers l = Except.ok v) : v = l.map canonicalMod := by
  induction l generalizing v with
  | nil =>
    simp only [validateModifiers] at h
    cases h
    rfl
  | cons m rest ih =>
    simp only [validateModifiers] at h
    by_cases hc : modifierMapKeys.contains (canonicalMod m) = true
    · rw [if_pos hc] at h
      cases hv : validateModifiers rest with
      | ok ms =>
        rw [hv] at h
        cases h
        simp [ih ms hv]
      | error e => rw [hv] at h; cases h
    · rw [if_neg hc] at h; cases h

theorem any_not_eq_not_all {α : Type _} (l : List α) (p : α → Bool) :
    (l.any fun x => !(p x)) = !(l.all p) := by
  induction l with
  | nil => rfl
  | cons x xs ih => cases hx : p x <;> simp [hx, ih]

theorem modifier_not_special (t : String)
    (h : modifierMapKeys.contains t = true) : SPECIAL_KEYS.lookup t = none := by
  have hm : t ∈ modifierMapKeys := by
    simpa using h
  simp only [modifierMapKeys, List.mem_cons, List.not_mem_nil, or_false] at hm
  rcases hm with h1 | h1 | h1 | h1 | h1 <;> subst h1 <;> decide

theorem parseHotkeyTokens_ok_iff (ts : List String) :
    exceptIsOk (parseHotkeyTokens ts) = !(hotkeyErrorTokens ts) := by
  by_cases h0 : ts = []
  · subst h0; decide
  by_cases h1 : ts = [""]
  · subst h1; decide
  have hni : ¬((decide (ts = []) || decide (ts = [""])) = true) := by
    simp [h0, h1]
  have d1 : decide (ts = [""]) = false := by simp [h1]
  cases hv : validateModifiers ts.dropLast with
  | error e =>
    have hok : exceptIsOk (validateModifiers ts.dropLast) = false := by
      rw [hv]; rfl
    rw [validateModifiers_isOk_eq] at hok
    have hany : (ts.dropLast.any fun m =>
        !(modifierMapKeys.contains (canonicalMod m))) = true := by
      rw [any_not_eq_not_all, hok]; rfl
    simp only [parseHotkeyTokens, hotkeyErrorTokens, if_neg hni, hv, hany,
               d1, exceptIsOk]
    simp [h0]
  | ok ms =>
    have hok : exceptIsOk (validateModifiers ts.dropLast) = true := by
      rw [hv]; rfl
    rw [validateModifiers_isOk_eq] at hok
    have hany : (ts.dropLast.any fun m =>
        !(modifierMapKeys.contains (canonicalMod m))) = false := by
      rw [any_not_eq_not_all, hok]; rfl
    cases hlk : SPECIAL_KEYS.lookup (ts.getLastD "") with
    | some k =>
      have hc : modifierMapKeys.contains (ts.getLastD "") = false := by
        by_cases hcc : modifierMapKeys.contains (ts.getLastD "") = true
        · rw [modifier_not_special _ hcc] at hlk; cases hlk
        · simpa using hcc
      simp only [parseHotkeyTokens, hotkeyErrorTokens, if_neg hni, hv, hlk,
                 hany, hc, d1, exceptIsOk, Option.isNone]
      simp [h0]
    | none =>
      by_cases hc : modifierMapKeys.contains (ts.getLastD "") = true
      · have hcond : (modifierMapKeys.contains (ts.getLastD "")
            || decide (ts.getLastD "" = "win")) = true := by
          rw [hc]; rfl
        simp only [parseHotkeyTokens, hotkeyErrorTokens, if_neg hni, hv, hlk,
                   hany, hc, d1, hcond, if_pos hcond, exceptIsOk]
        simp [h0]
      · have hc' : modifierMapKeys.contains (ts.getLastD "") = false := by
          simpa using hc
        have hw : ¬(ts.getLastD "" = "win") := by
          intro he
          rw [he] at hc'
          exact absurd hc' (by decide)
        have dW : decide (ts.getLastD "" = "win") = false := by simpa using hw
        have hcond : ¬((modifierMapKeys.contains (ts.getLastD "")
            || decide (ts.getLastD "" = "win")) = true) := by
          rw [hc', dW]; simp
        have hw' : ¬(ts.getLast?.getD "" = "win") := by simpa using hw
        by_cases hlen : (ts.getLastD "").length = 1
        · have dL : (((ts.getLastD "").length != 1) : Bool) = false := by
            simpa using hlen
          simp only [parseHotkeyTokens, hotkeyErrorTokens, if_neg hni, hv, hlk,
                     hany, hc', d1, dL, if_neg hcond, if_pos hlen, exceptIsOk,
                     Option.isNone]
          simp [h0, hw']
        · have dL : (((ts.getLastD "").length != 1) : Bool) = true := by
            simpa using hlen
          simp only [parseHotkeyTokens, hotkeyErrorTokens, if_neg hni, hv, hlk,
                     hany, hc', d1, dL, if_neg hcond, if_neg hlen, exceptIsOk,
                     Option.isNone]
          simp [h0, hw']

theorem parseHotkeyTokens_success_mapping (ts : List String)
    (mods : List String) (trig : PynputKey)
    (h : parseHotkeyTokens ts = Except.ok (mods, trig)) :
    mods = ts.dropLast.map canonicalMod ∧
    (∀ k, SPECIAL_KEYS.lookup (ts.getLastD "") = some k →
       trig = PynputKey.special k) ∧
    (SPECIAL_KEYS.lookup (ts.getLastD "") = none →
       trig = PynputKey.keyCode (ts.getLastD "").data.head?) := by
  by_cases h0 : (decide (ts = []) || decide (ts = [""])) = true
  · simp only [parseHotkeyTokens, if_pos h0] at h
    exact Except.noConfusion h
  · simp only [parseHotkeyTokens, if_neg h0] at h
    cases hv : validateModifiers ts.dropLast with
    | error e =>
      simp only [hv] at h
      exact Except.noConfusion h
    | ok ms =>
      simp only [hv] at h
      cases hlk : SPECIAL_KEYS.lookup (ts.getLastD "") with
      | some k =>
        simp only [hlk, Except.ok.injEq, Prod.mk.injEq] at h
        obtain ⟨hm1, hm2⟩ := h
        subst hm1
        subst hm2
        refine ⟨validateModifiers_ok_val _ _ hv, ?_, ?_⟩
        · intro k' hk'
          cases hk'
          rfl
        · intro hn; cases hn
      | none =>
        simp only [hlk] at h
        by_cases hm : (modifierMapKeys.contains (ts.getLastD "")
            || decide (ts.getLastD "" = "win")) = true
        · simp only [if_pos hm] at h
          exact Except.noConfusion h
        · simp only [if_neg hm] at h
          by_cases hlen : (ts.getLastD "").length = 1
          · simp only [if_pos hlen, Except.ok.injEq, Prod.mk.injEq] at h
            obtain ⟨hm1, hm2⟩ := h
            subst hm1
            subst hm2
            refine ⟨validateModifiers_ok_val _ _ hv, ?_, fun _ => rfl⟩
            intro k' hk'
            cases hk'
          · simp only [if_neg hlen] at h
            exact Except.noConfusion h

/-- Claim C8: `parse_hotkey` splits the specification string on `+`,
lowercases, treats the last token as the trigger and the preceding tokens
as modifiers from the alt/ctrl/shift/cmd-win vocabulary (win canonicalised
to cmd); it maps a recognised named trailing token to the corresponding
special key and a single-character trailing token to a literal key; and it
fails with a validation error exactly when the string is empty, a
preceding token is not a recognised modifier, the trailing token is itself
a modifier, or the trailing token is otherwise unrecognised. -/
theorem parse_hotkey_spec (s : String) :
    (exceptIsOk (parse_hotkey s) = !(hotkeyErrorCond s)) ∧
    (∀ (mods : List String) (trig : PynputKey),
       parse_hotkey s = Except.ok (mods, trig) →
       mods = (hotkeyTokens s).dropLast.map canonicalMod ∧
       (∀ k, SPECIAL_KEYS.lookup (hotkeyTrailing s) = some k →
          trig = PynputKey.special k) ∧
       (SPECIAL_KEYS.lookup (hotkeyTrailing s) = none →
          trig = PynputKey.keyCode (hotkeyTrailing s).data.head?)) :=
  ⟨parseHotkeyTokens_ok_iff (hotkeyTokens s),
   fun mods trig h => parseHotkeyTokens_success_mapping (hotkeyTokens s) mods trig h⟩

/-- Witness for C8 at concrete strings: "ctrl+shift+a" parses successfully
to the literal key a under modifiers ctrl and shift, and "ctrl+foo"
satisfies the error condition (unrecognised trailing token). -/
theorem parse_hotkey_spec_witness :
    exceptIsOk (parse_hotkey "ctrl+shift+a") = !(hotkeyErrorCond "ctrl+shift+a") ∧
    ["ctrl", "shift"] = (hotkeyTokens "ctrl+shift+a").dropLast.map canonicalMod ∧
    PynputKey.keyCode (some 'a') =
      PynputKey.keyCode (hotkeyTrailing "ctrl+shift+a").data.head? ∧
    exceptIsOk (parse_hotkey "ctrl+foo") = !(hotkeyErrorCond "ctrl+foo") := by
  refine ⟨(parse_hotkey_spec "ctrl+shift+a").1, ?_, ?_, (parse_hotkey_spec "ctrl+foo").1⟩
  · exact ((parse_hotkey_spec "ctrl+shift+a").2 ["ctrl", "shift"]
      (PynputKey.keyCode (some 'a')) (by decide)).1
  · exact ((parse_hotkey_spec "ctrl+shift+a").2 ["ctrl", "shift"]
      (PynputKey.keyCode (some 'a')) (by decide)).2.2 (by decide)

/-- Witness for C10: with the snapshot absent the safety check passes even
under a flagged mismatch, and a concrete fast-lane run injects. -/
theorem verify_window_safety_vacuous_without_snapshot_witness :
    verifyWindowSafety none true wBrowser = true ∧
    Effect.injectText "out" (some "clip") ∈ (processWithPersonas envC10 "hi" sC10).2 :=
  ⟨verify_window_safety_vacuous_without_snapshot.1 true wBrowser,
   verify_window_safety_vacuous_without_snapshot.2 envC10 "hi" sC10 "out"
     rfl rfl rfl rfl rfl⟩

/-- Claim C6: when the refinement call throws an ordinary exception or no
LLM client is configured, `_run_llm` returns its input text unchanged
rather than raising; consequently on the staging refine path with a
failing LLM the injected text equals the pre-refinement edited text. -/
theorem run_llm_falls_back_to_input :
    (∀ (cfg : Bool) (call : LLMCall) (mode : String) (sel : Option String)
       (text : String) (persona : Option Persona),
       cfg = false ∨ call = LLMCall.fail →
       (runLLM cfg call mode sel text persona).1 = Except.ok text) ∧
    (∀ (env : StagingEnv) (text : String) (s : AppState),
       env.llmCall = LLMCall.fail →
       env.stagingAction = "refine" →
       s.cancelRequested = false →
       env.cancelDuringStaging = false →
       env.cancelAfterLLM = false →
       env.watcherFlagsMismatch = false →
       verifyWindowSafety s.targetWindow false env.fgAtVerify = true →
       Effect.injectText env.stagingText s.originalClipboard ∈
         (processWithStaging env text s).2) := by
  constructor
  · rintro cfg call mode sel text persona (h | h)
    · subst h; simp [runLLM]
    · subst h; cases cfg <;> simp [runLLM]
  · intro env text s hfail haction hc hds hal hwm hsafe
    cases hcfg : env.llmConfigured <;>
      simp [processWithStaging, startHwndWatcher, saveInteractionState, runLLM,
            hfail, haction, hc, hds, hal, hwm, hsafe, hcfg]

/-- Witness for C6: a failing refinement call at a concrete staging run
injects the edited text unchanged. -/
theorem run_llm_falls_back_to_input_witness :
    (runLLM true LLMCall.fail "insert" none "raw words" none).1 =
      Except.ok "raw words" ∧
    Effect.injectText "edited text" (some "clip") ∈
      (processWithStaging envC6 "raw words" baseState).2 :=
  ⟨run_llm_falls_back_to_input.1 true LLMCall.fail "insert" none "raw words" none
     (Or.inr rfl),
   run_llm_falls_back_to_input.2 envC6 "raw words" baseState
     rfl rfl rfl rfl rfl rfl (by decide)⟩

/-- Claim C7: if the selected-text probe returns non-empty text the session
mode is set to polish and exactly that text, unmodified, is the
original-text argument of the polish refinement call; if the probe returns
None the mode is set to insert. -/
theorem mode_selection_and_selection_verbatim :
    ∀ (env : RecEnv) (s : AppState) (t : String),
      (env.grabSelected = some t → t ≠ "" →
        (startRecording env s).1.mode = "polish" ∧
        (startRecording env s).1.selectedText = some t ∧
        (∀ (call : LLMCall) (instr : String) (persona : Option Persona),
          Effect.llmPolish t instr (buildOverrides "polish" persona) ∈
            (runLLM true call (startRecording env s).1.mode
               (startRecording env s).1.selectedText instr persona).2)) ∧
      (env.grabSelected = none → (startRecording env s).1.mode = "insert") := by
  intro env s t
  constructor
  · intro hg ht
    have h1 : (startRecording env s).1.mode = "polish" := by
      simp [startRecording, startHwndWatcher, pyTruthy, hg, ht]
    have h2 : (startRecording env s).1.selectedText = some t := by
      simp [startRecording, startHwndWatcher, pyTruthy, hg, ht]
    refine ⟨h1, h2, ?_⟩
    intro call instr persona
    rw [h1, h2]
    cases call <;> simp [runLLM]
  · intro hg
    simp [startRecording, startHwndWatcher, pyTruthy, hg]

/-- Witness for C7: a concrete grab of "teh quick fox" yields polish mode
with that text as the polish call's original-text argument; a concrete
empty probe yields insert mode. -/
theorem mode_selection_and_selection_verbatim_witness :
    (startRecording envC7 baseState).1.mode = "polish" ∧
    (startRecording envC7 baseState).1.selectedText = some "teh quick fox" ∧
    Effect.llmPolish "teh quick fox" "fix the typo" (buildOverrides "polish" none) ∈
      (runLLM true (LLMCall.ok "the quick fox") (startRecording envC7 baseState).1.mode
        (startRecording envC7 baseState).1.selectedText "fix the typo" none).2 ∧
    (startRecording envC7n baseState).1.mode = "insert" := by
  have h := (mode_selection_and_selection_verbatim envC7 baseState "teh quick fox").1
    rfl (by decide)
  exact ⟨h.1, h.2.1,
    h.2.2 (LLMCall.ok "the quick fox") "fix the typo" none,
    (mode_selection_and_selection_verbatim envC7n baseState "").2 rfl⟩

theorem hkTrack_toggledOn (cfg : HKConfig) (s : HKState) (k : PynputKey) :
    (hkTrack cfg s k).toggledOn = s.toggledOn := by
  cases h : normalizeModifier k <;>
    · simp only [hkTrack, h]
      split <;> rfl

theorem hkTrack_active (cfg : HKConfig) (s : HKState) (k : PynputKey) :
    (hkTrack cfg s k).active = s.active := by
  cases h : normalizeModifier k <;>
    · simp only [hkTrack, h]
      split <;> rfl

theorem hkOnKeyRelease_toggle (cfg : HKConfig) (s : HKState) (k : PynputKey)
    (hm : cfg.mode = "toggle") :
    (hkOnKeyRelease cfg s k).2 = none ∧
    (hkOnKeyRelease cfg s k).1.toggledOn = s.toggledOn ∧
    ((hkOnKeyRelease cfg s k).1.active = s.active ∨
      (hkOnKeyRelease cfg s k).1.active = false) := by
  by_cases ht : isTrigger cfg.trigger k = true <;>
    cases hn : normalizeModifier k <;>
      simp [hkOnKeyRelease, hm, ht, hn]

theorem hkFirings_toggle_first_not_release (cfg : HKConfig)
    (hm : cfg.mode = "toggle") :
    ∀ (es : List HKEvent) (s : HKState), s.toggledOn = false → s.active = false →
      (hkFirings cfg s es).head? ≠ some HKFired.release := by
  intro es
  induction es with
  | nil => intro s _ _; simp [hkFirings]
  | cons e rest ih =>
    intro s hT hA
    cases e with
    | keyDown k =>
      have hT1 : (hkTrack cfg s k).toggledOn = false := by
        rw [hkTrack_toggledOn]; exact hT
      have hA1 : (hkTrack cfg s k).active = false := by
        rw [hkTrack_active]; exact hA
      by_cases hc : comboPressed cfg (hkTrack cfg s k) = true
      · simp [hkFirings, hkStep, hkOnKeyPress, hm, hc, hT1, hA1]
      · have hc' : comboPressed cfg (hkTrack cfg s k) = false := by
          simpa using hc
        simp only [hkFirings, hkStep, hkOnKeyPress, hm, hc', hA1]
        simp only [Bool.false_and, Bool.not_false, if_pos rfl, if_false]
        exact ih _ hT1 hA1
    | keyUp k =>
      obtain ⟨hf, hTog, hAct⟩ := hkOnKeyRelease_toggle cfg s k hm
      simp only [hkFirings, hkStep]
      cases hrel : hkOnKeyRelease cfg s k with
      | mk s' f =>
        rw [hrel] at hf hTog hAct
        subst hf
        refine ih s' ?_ ?_
        · rw [hTog]; exact hT
        · rcases hAct with hAct | hAct
          · rw [hAct]; exact hA
          · exact hAct

/-- Claim C9: in toggle mode, after `reset_toggle()` the next full-combo
press fires `on_press` and never `on_release`, regardless of the toggle
flag's value before the reset: the first callback fired on any event
sequence after a reset is not `on_release`, and a key press completing the
full combo fires `on_press`. -/
theorem reset_toggle_next_press_fires_on_press :
    ∀ (cfg : HKConfig) (s : HKState), cfg.mode = "toggle" →
      (∀ (es : List HKEvent),
        (hkFirings cfg (hkResetToggle s) es).head? ≠ some HKFired.release) ∧
      (∀ (k : PynputKey),
        comboPressed cfg (hkTrack cfg (hkResetToggle s) k) = true →
        (hkOnKeyPress cfg (hkResetToggle s) k).2 = some HKFired.press) := by
  intro cfg s hm
  constructor
  · intro es
    exact hkFirings_toggle_first_not_release cfg hm es (hkResetToggle s) rfl rfl
  · intro k hc
    have hT1 : (hkTrack cfg (hkResetToggle s) k).toggledOn = false :=
      hkTrack_toggledOn cfg (hkResetToggle s) k
    have hA1 : (hkTrack cfg (hkResetToggle s) k).active = false :=
      hkTrack_active cfg (hkResetToggle s) k
    simp [hkOnKeyPress, hm, hc, hT1, hA1]

/-- Witness for C9: with an f6 toggle listener whose toggle flag was on,
after a reset the f6 key-down fires `on_press`. -/
theorem reset_toggle_next_press_fires_on_press_witness :
    (hkFirings cfgF6 (hkResetToggle hkS0)
        [HKEvent.keyDown (PynputKey.special PKey.f6)]).head? ≠
      some HKFired.release ∧
    (hkOnKeyPress cfgF6 (hkResetToggle hkS0) (PynputKey.special PKey.f6)).2 =
      some HKFired.press :=
  ⟨(reset_toggle_next_press_fires_on_press cfgF6 hkS0 rfl).1 _,
   (reset_toggle_next_press_fires_on_press cfgF6 hkS0 rfl).2
     (PynputKey.special PKey.f6) (by decide)⟩

theorem runLLM_effects_no_inject (cfg : Bool) (call : LLMCall) (mode : String)
    (sel : Option String) (text : String) (p : Option Persona)
    (t : String) (c : Option String) :
    Effect.injectText t c ∉ (runLLM cfg call mode sel text p).2 := by
  cases call <;> cases cfg <;> by_cases hm : mode = "polish" <;> simp [runLLM, hm]

theorem ghostUndoEffects_no_inject (target : Option WindowIdentity)
    (fg : WindowIdentity) (t : String) (c : Option String) :
    Effect.injectText t c ∉ ghostUndoEffects target fg := by
  cases target with
  | none => simp [ghostUndoEffects]
  | some w =>
    by_cases hv : verify_foreground_window fg w = true <;>
      simp [ghostUndoEffects, hv]

/-- Counterexample to C1: on the staging path's raw action the session state
carries a watcher-flagged mismatch (so the injection-safety check, had it
run, would report unsafe — even with the original window foreground), yet
`inject_text` is called and nothing is stored in `HeldResult`. -/
theorem staging_raw_injects_despite_mismatch :
    sMismatch.windowMismatch = true ∧
    verifyWindowSafety sMismatch.targetWindow sMismatch.windowMismatch wEditor = false ∧
    Effect.injectText "hello" (some "clip") ∈
      (processWithStaging envC1raw "raw text" sMismatch).2 ∧
    (processWithStaging envC1raw "raw text" sMismatch).1.heldResult = none := by
  refine ⟨rfl, rfl, by decide, by decide⟩

/-- Claim C1, amended: the injection-safety check gates `inject_text` on the
persona fast-lane, the staging refine action, the ghost revert refine
action, and the ghost regenerate action — when the check reports unsafe,
`inject_text` is not called and the computed result is stored in
`HeldResult` instead; but the staging raw action, the ghost revert raw
action and the ghost use-raw action call `inject_text` with no safety
check (use-raw, and revert when the staging editor resolves to the raw
action, inject whenever saved state exists and the lock is free,
regardless of window identity or a flagged mismatch). -/
theorem injection_safety_check_amended :
    (∀ (env : PersonasEnv) (text : String) (s : AppState) (r : String),
       s.cancelRequested = false → env.cancelBeforeLLM = false →
       env.cancelAfterLLM = false →
       (runLLM env.llmConfigured env.llmCall s.mode s.selectedText text
          s.preselectedPersona).1 = Except.ok r →
       verifyWindowSafety s.targetWindow env.watcherFlagsMismatch env.fgAtVerify = false →
       (∀ (t : String) (c : Option String),
          Effect.injectText t c ∉ (processWithPersonas env text s).2) ∧
       (processWithPersonas env text s).1.heldResult = some r ∧
       Effect.flyToHoldBubble r ∈ (processWithPersonas env text s).2) ∧
    (∀ (env : StagingEnv) (text : String) (s : AppState) (r : String),
       s.cancelRequested = false → env.cancelDuringStaging = false →
       env.cancelAfterLLM = false → env.stagingAction = "refine" →
       (runLLM env.llmConfigured env.llmCall s.mode s.selectedText
          env.stagingText none).1 = Except.ok r →
       verifyWindowSafety s.targetWindow env.watcherFlagsMismatch env.fgAtVerify = false →
       (∀ (t : String) (c : Option String),
          Effect.injectText t c ∉ (processWithStaging env text s).2) ∧
       (processWithStaging env text s).1.heldResult = some r ∧
       Effect.flyToHoldBubble r ∈ (processWithStaging env text s).2) ∧
    (∀ (env : GhostEnv) (s : AppState) (raw r : String),
       s.lastRawText = some raw → s.pipelineLockHeld = false →
       env.stagingAction = "refine" →
       (runLLM env.llmConfigured env.llmCall (pyStrOr s.lastMode "insert")
          s.lastSelectedText env.stagingText none).1 = Except.ok r →
       verifyWindowSafety s.lastTargetWindow env.watcherFlagsMismatch env.fgAtVerify = false →
       (∀ (t : String) (c : Option String),
          Effect.injectText t c ∉ (onGhostRevert env s).2) ∧
       (onGhostRevert env s).1.heldResult = some r ∧
       Effect.flyToHoldBubble r ∈ (onGhostRevert env s).2) ∧
    (∀ (env : GhostEnv) (s : AppState) (raw r : String),
       s.lastRawText = some raw → s.pipelineLockHeld = false →
       (runLLM env.llmConfigured env.llmCall (pyStrOr s.lastMode "insert")
          s.lastSelectedText raw s.lastPersona).1 = Except.ok r →
       verifyWindowSafety s.lastTargetWindow env.watcherFlagsMismatch env.fgAtVerify = false →
       (∀ (t : String) (c : Option String),
          Effect.injectText t c ∉ (onGhostRegenerate env s).2) ∧
       (onGhostRegenerate env s).1.heldResult = some r ∧
       Effect.flyToHoldBubble r ∈ (onGhostRegenerate env s).2) ∧
    (∀ (env : GhostEnv) (s : AppState) (raw : String),
       s.lastRawText = some raw → s.pipelineLockHeld = false →
       Effect.injectText raw s.lastOriginalClipboard ∈ (onGhostUseRaw env s).2) ∧
    (∀ (env : GhostEnv) (s : AppState) (raw : String),
       s.lastRawText = some raw → s.pipelineLockHeld = false →
       env.stagingAction = "raw" →
       Effect.injectText env.stagingText s.lastOriginalClipboard ∈
         (onGhostRevert env s).2) := by
  refine ⟨?_, ?_, ?_, ?_, ?_, ?_⟩
  · intro env text s r hc hb ha hllm hunsafe
    cases hwm : env.watcherFlagsMismatch <;> rw [hwm] at hunsafe <;>
      exact ⟨fun t c => by
          cases hmm : s.windowMismatch <;>
            simp [processWithPersonas, startHwndWatcher, saveInteractionState,
                  hb, hc, ha, hllm, hwm, hmm, hunsafe, runLLM_effects_no_inject],
        by simp [processWithPersonas, startHwndWatcher, saveInteractionState,
                 hb, hc, ha, hllm, hwm, hunsafe],
        by simp [processWithPersonas, startHwndWatcher, saveInteractionState,
                 hb, hc, ha, hllm, hwm, hunsafe]⟩
  · intro env text s r hc hds hal haction hllm hunsafe
    cases hwm : env.watcherFlagsMismatch <;> rw [hwm] at hunsafe <;>
      exact ⟨fun t c => by
          cases hmm : s.windowMismatch <;>
            simp [processWithStaging, startHwndWatcher, saveInteractionState,
                  haction, hc, hds, hal, hllm, hwm, hmm, hunsafe,
                  runLLM_effects_no_inject],
        by simp [processWithStaging, startHwndWatcher, saveInteractionState,
                 haction, hc, hds, hal, hllm, hwm, hunsafe],
        by simp [processWithStaging, startHwndWatcher, saveInteractionState,
                 haction, hc, hds, hal, hllm, hwm, hunsafe]⟩
  · intro env s raw r hraw hlock haction hllm hunsafe
    cases hwm : env.watcherFlagsMismatch <;> rw [hwm] at hunsafe <;>
      exact ⟨fun t c => by
          simp [onGhostRevert, onGhostRevertBody, startHwndWatcher,
                saveInteractionState, hraw, hlock, haction,
                hllm, hwm, hunsafe, runLLM_effects_no_inject,
                ghostUndoEffects_no_inject],
        by simp [onGhostRevert, onGhostRevertBody, startHwndWatcher,
                 saveInteractionState, ghostUndoEffects, hraw, hlock, haction,
                 hllm, hwm, hunsafe],
        by simp [onGhostRevert, onGhostRevertBody, startHwndWatcher,
                 saveInteractionState, ghostUndoEffects, hraw, hlock, haction,
                 hllm, hwm, hunsafe]⟩
  · intro env s raw r hraw hlock hllm hunsafe
    cases hwm : env.watcherFlagsMismatch <;> rw [hwm] at hunsafe <;>
      exact ⟨fun t c => by
          simp [onGhostRegenerate, onGhostRegenerateBody, startHwndWatcher,
                saveInteractionState, hraw, hlock,
                hllm, hwm, hunsafe, runLLM_effects_no_inject,
                ghostUndoEffects_no_inject],
        by simp [onGhostRegenerate, onGhostRegenerateBody, startHwndWatcher,
                 saveInteractionState, ghostUndoEffects, hraw, hlock,
                 hllm, hwm, hunsafe],
        by simp [onGhostRegenerate, onGhostRegenerateBody, startHwndWatcher,
                 saveInteractionState, ghostUndoEffects, hraw, hlock,
                 hllm, hwm, hunsafe]⟩
  · intro env s raw hraw hlock
    simp [onGhostUseRaw, saveInteractionState, ghostUndoEffects, hraw, hlock]
  · intro env s raw hraw hlock haction
    have hp : ("persona:".data.isPrefixOf "raw".data) = false := by decide
    simp [onGhostRevert, onGhostRevertBody, saveInteractionState,
          ghostUndoEffects, hraw, hlock, haction, hp]

/-- Witness for the amended C1 at concrete runs: the fast lane diverts to
the hold bubble without injecting when the watcher flagged a mismatch; the
staging refine path and both checked ghost actions divert likewise; ghost
use-raw injects with saved state present, and ghost revert's raw action
injects with an unrelated window foreground at the final check. -/
theorem injection_safety_check_amended_witness :
    (processWithPersonas envC1p "hi" baseState).1.heldResult = some "res" ∧
    Effect.flyToHoldBubble "res" ∈ (processWithPersonas envC1p "hi" baseState).2 ∧
    Effect.injectText "res" (some "clip") ∉ (processWithPersonas envC1p "hi" baseState).2 ∧
    (processWithStaging envC5 "raw t" baseState).1.heldResult = some "polished" ∧
    (onGhostRevert envC1g sGhost).1.heldResult = some "res" ∧
    (onGhostRegenerate envC1g sGhost).1.heldResult = some "res" ∧
    Effect.injectText "raw words" (some "prior clip") ∈ (onGhostUseRaw envC1g sGhost).2 ∧
    Effect.injectText "ghost edit" (some "prior clip") ∈ (onGhostRevert envC1gr sGhost).2 := by
  have h1 := injection_safety_check_amended.1 envC1p "hi" baseState "res"
    rfl rfl rfl rfl (by decide)
  have h2 := injection_safety_check_amended.2.1 envC5 "raw t" baseState "polished"
    rfl rfl rfl rfl rfl (by decide)
  have h3 := injection_safety_check_amended.2.2.1 envC1g sGhost "raw words" "res"
    rfl rfl rfl rfl (by decide)
  have h4 := injection_safety_check_amended.2.2.2.1 envC1g sGhost "raw words" "res"
    rfl rfl rfl (by decide)
  have h5 := injection_safety_check_amended.2.2.2.2.1 envC1g sGhost "raw words"
    rfl rfl
  have h6 := injection_safety_check_amended.2.2.2.2.2 envC1gr sGhost "raw words"
    rfl rfl rfl
  exact ⟨h1.2.1, h1.2.2, h1.1 "res" (some "clip"), h2.2.1, h3.2.1, h4.2.1, h5, h6⟩

/-- Counterexample to C2: a session whose watcher flagged a mismatch while
recording reaches the fast lane, which restarts the watcher before the
refinement call; the restart resets the flag to False and, with the
original window foreground again, the session injects — the flag did not
remain set and did not veto injection for the rest of the session. -/
theorem window_mismatch_not_sticky_counterexample :
    sMismatch.windowMismatch = true ∧
    (processWithPersonas envC2 "hi" sMismatch).1.windowMismatch = false ∧
    Effect.injectText "polished" (some "clip") ∈
      (processWithPersonas envC2 "hi" sMismatch).2 := by
  refine ⟨rfl, by decide, by decide⟩

/-- Claim C2, amended: the window-changed flag is sticky only within one
watcher span — the watcher itself never resets it — but
`_start_hwnd_watcher` unconditionally clears it when (re)started, and the
fast lane restarts the watcher before the refinement call, so a mismatch
flagged earlier in the session does not veto injection when the original
window is foreground again at the final safety check. -/
theorem window_mismatch_sticky_only_per_watcher_span :
    (∀ (s : AppState), ((startHwndWatcher s).1).windowMismatch = false) ∧
    (∀ (target : Option WindowIdentity) (ticks : List WatchTick),
       (watchHwnd target true ticks).1 = true) ∧
    (∀ (env : PersonasEnv) (text : String) (s : AppState) (r : String),
       s.windowMismatch = true →
       s.cancelRequested = false → env.cancelBeforeLLM = false →
       env.cancelAfterLLM = false → env.watcherFlagsMismatch = false →
       (runLLM env.llmConfigured env.llmCall s.mode s.selectedText text
          s.preselectedPersona).1 = Except.ok r →
       verifyWindowSafety s.targetWindow false env.fgAtVerify = true →
       Effect.injectText r s.originalClipboard ∈ (processWithPersonas env text s).2) := by
  refine ⟨fun s => rfl, ?_, ?_⟩
  · intro target ticks
    induction ticks with
    | nil => rfl
    | cons tick rest ih =>
      by_cases ha : tick.activeAtCheck = true
      · cases target with
        | none => simpa [watchHwnd, ha] using ih
        | some w =>
          by_cases hv : verify_foreground_window tick.fg w = true
          · simpa [watchHwnd, ha, hv] using ih
          · have hv' : verify_foreground_window tick.fg w = false := by
              simpa using hv
            simp [watchHwnd, ha, hv']
      · have ha' : tick.activeAtCheck = false := by simpa using ha
        simp [watchHwnd, ha']
  · intro env text s r hm hc hb ha hwm hllm hsafe
    simp [processWithPersonas, startHwndWatcher, saveInteractionState,
          hm, hc, hb, ha, hwm, hllm, hsafe]

/-- Witness for the amended C2: the watcher keeps an already-set flag over
a concrete poll trace, and a concrete flagged session injects after the
restart with the original window focused. -/
theorem window_mismatch_sticky_only_per_watcher_span_witness :
    (watchHwnd (some wEditor) true
      [{ activeAtCheck := true, fg := wEditor }]).1 = true ∧
    Effect.injectText "polished" (some "clip") ∈
      (processWithPersonas envC2 "hi" sMismatch).2 :=
  ⟨window_mismatch_sticky_only_per_watcher_span.2.1 (some wEditor) _,
   window_mismatch_sticky_only_per_watcher_span.2.2 envC2 "hi" sMismatch "polished"
     rfl rfl rfl rfl rfl rfl (by decide)⟩

/-- Counterexample to C5: on the window-mismatch divert path of the staging
refine branch no `inject_text` call occurs, yet the LastInteraction record
is overwritten (the result is also parked in `HeldResult`). -/
theorem last_interaction_written_without_injection :
    ((processWithStaging envC5 "raw t" baseState).2.all
        fun e => !(isInjectEffect e)) = true ∧
    baseState.lastResult = none ∧
    (processWithStaging envC5 "raw t" baseState).1.lastResult = some "polished" ∧
    (processWithStaging envC5 "raw t" baseState).1.heldResult = some "polished" := by
  refine ⟨by decide, rfl, by decide, by decide⟩

/-- Claim C5, amended: the LastInteraction record is written after a
successful injection and also on the window-mismatch divert path (with the
ghost menu suppressed), so ghost actions work after a later hold-inject;
on paths that neither inject nor divert — staging cancel, cancellation
before the LLM call, an interrupted LLM call, and the empty-audio abort —
it is left unchanged. -/
theorem last_interaction_lifecycle_amended :
    (∀ (env : PersonasEnv) (text : String) (s : AppState) (r : String),
       s.cancelRequested = false → env.cancelBeforeLLM = false →
       env.cancelAfterLLM = false →
       (runLLM env.llmConfigured env.llmCall s.mode s.selectedText text
          s.preselectedPersona).1 = Except.ok r →
       verifyWindowSafety s.targetWindow env.watcherFlagsMismatch env.fgAtVerify = false →
       (processWithPersonas env text s).1.lastRawText = some text ∧
       (processWithPersonas env text s).1.lastResult = some r) ∧
    (∀ (env : StagingEnv) (text : String) (s : AppState),
       env.stagingAction = "cancel" →
       lastFields (processWithStaging env text s).1 = lastFields s) ∧
    (∀ (env : PersonasEnv) (text : String) (s : AppState),
       s.cancelRequested = false → env.cancelBeforeLLM = true →
       lastFields (processWithPersonas env text s).1 = lastFields s) ∧
    (∀ (env : PersonasEnv) (text : String) (s : AppState),
       s.cancelRequested = false → env.cancelBeforeLLM = false →
       env.llmConfigured = true → env.llmCall = LLMCall.interrupt →
       lastFields (processWithPersonas env text s).1 = lastFields s) ∧
    (∀ (env : PipelineEnv) (s : AppState),
       env.recordingStartedInTime = true → env.noSamples = true →
       env.cancelAfterStart = false → env.cancelBeforeStop = false →
       env.cancelAfterStop = false → s.cancelRequested = false →
       env.recorderRecording = true →
       lastFields (processPipeline env s).1 = lastFields s) := by
  refine ⟨?_, ?_, ?_, ?_, ?_⟩
  · intro env text s r hc hb ha hllm hunsafe
    cases hwm : env.watcherFlagsMismatch <;> rw [hwm] at hunsafe <;>
      constructor <;>
        simp [processWithPersonas, startHwndWatcher, saveInteractionState,
              hc, hb, ha, hllm, hwm, hunsafe]
  · intro env text s haction
    simp [processWithStaging, lastFields, haction]
  · intro env text s hc hb
    simp [processWithPersonas, startHwndWatcher, lastFields, hc, hb]
  · intro env text s hc hb hcfg hint
    simp [processWithPersonas, startHwndWatcher, runLLM, lastFields,
          hc, hb, hcfg, hint]
  · intro env s h1 h2 h3 h4 h5 h6 h7
    simp [processPipeline, processPipelineTry, pipelineFinalize, lastFields,
          h1, h2, h3, h4, h5, h6, h7]

/-- Witness for the amended C5 at concrete runs: the divert path writes the
record; the cancel, interrupt and empty-audio paths leave it unchanged. -/
theorem last_interaction_lifecycle_amended_witness :
    (processWithPersonas envC1p "hi" baseState).1.lastRawText = some "hi" ∧
    lastFields (processWithStaging envC5c "raw t" baseState).1 = lastFields baseState ∧
    lastFields (processWithPersonas envC2c "hi" baseState).1 = lastFields baseState ∧
    lastFields (processWithPersonas envC2i "hi" baseState).1 = lastFields baseState ∧
    lastFields (processPipeline envPipeEmpty baseState).1 = lastFields baseState :=
  ⟨(last_interaction_lifecycle_amended.1 envC1p "hi" baseState "res"
      rfl rfl rfl rfl (by decide)).1,
   last_interaction_lifecycle_amended.2.1 envC5c "raw t" baseState rfl,
   last_interaction_lifecycle_amended.2.2.1 envC2c "hi" baseState rfl rfl,
   last_interaction_lifecycle_amended.2.2.2.1 envC2i "hi" baseState rfl rfl rfl rfl,
   last_interaction_lifecycle_amended.2.2.2.2 envPipeEmpty baseState
     rfl rfl rfl rfl rfl rfl rfl⟩

end Untype
